import Mathlib

/-!
Verification of the kinect.rs binding layer (a Rust wrapper over the Azure
Kinect `k4a` native SDK) against its natural-language specification.

The development shallowly embeds the relevant Rust source:
* `src/image_format.rs`  — `ImageFormat`, `to_k4a`, `From<k4a_image_format_t>`
* `src/device_configuration.rs` — `DeviceConfiguration::new` / `init_disable_all`
* `src/device.rs` — `get_serial_number`, `get_capture`, `get_capture_buffered`,
  `start_cameras_default_config`
* `src/calibration.rs` — `Calibration::default` and its resolution accessors
* `src/capture.rs`, `src/image.rs` — refcounted `Clone`/`Drop` lifecycle and
  the image-slot accessors
* `src/transformation.rs` — `Transformation` (`derive(Clone)` + `Drop`)
* `src/lib.rs` — the legacy revision of `Device`, `Capture`, `Image`

Native SDK calls are modelled either as explicit function parameters (mock
native behaviour) or, for the reference-count bookkeeping that the SDK
performs internally, as a small explicit state.  Machine integers are
modelled as `Nat`/`Int`; `f32` calibration fields are modelled as `ℚ`
(no floating-point arithmetic is ever performed on them in the embedded
code — they are only stored and compared to literal zero).
-/

namespace KinectRs

/-! ### Native result-code constants (from the k4a SDK headers, re-exported
by the external `k4a-sys` crate; values fixed by the C ABI). -/

def K4A_WAIT_RESULT_SUCCEEDED : Nat := 0
def K4A_WAIT_RESULT_FAILED : Nat := 1
def K4A_WAIT_RESULT_TIMEOUT : Nat := 2

def K4A_BUFFER_RESULT_SUCCEEDED : Nat := 0
def K4A_BUFFER_RESULT_FAILED : Nat := 1
def K4A_BUFFER_RESULT_TOO_SMALL : Nat := 2

def K4A_IMAGE_FORMAT_COLOR_MJPG : Nat := 0
def K4A_IMAGE_FORMAT_COLOR_BGRA32 : Nat := 3

def K4A_COLOR_RESOLUTION_OFF : Nat := 0
def K4A_COLOR_RESOLUTION_720P : Nat := 1
def K4A_COLOR_RESOLUTION_2160P : Nat := 5

def K4A_DEPTH_MODE_OFF : Nat := 0
def K4A_DEPTH_MODE_NFOV_UNBINNED : Nat := 2
def K4A_DEPTH_MODE_WFOV_2X2BINNED : Nat := 3

def K4A_FRAMES_PER_SECOND_30 : Nat := 2

def K4A_WIRED_SYNC_MODE_STANDALONE : Nat := 0

/-- `result as i32` where `result : u32`: the two's-complement reinterpretation
performed when the binding stores a native `u32` status in an `i32` error
field (`device.rs`, several `NB:` comments). -/
def i32ofU32 (n : Nat) : Int :=
  if n < 2 ^ 31 then (n : Int) else (n : Int) - 2 ^ 32

/-! ### `src/image_format.rs` -/

/-- `ImageFormat` (src/image_format.rs lines 5-22). -/
inductive ImageFormat
  | ColorMjpg
  | ColorNv12
  | ColorYuy2
  | ColorBgra32
  | Depth16
  | Ir16
  | Custom8
  | Custom16
  | Custom
  | UnknownFormatError
deriving DecidableEq, Repr, Fintype

/-- `ImageFormat::to_k4a` (src/image_format.rs lines 24-39). -/
def ImageFormat.to_k4a : ImageFormat → Nat
  | ImageFormat.ColorMjpg => 0
  | ImageFormat.ColorNv12 => 1
  | ImageFormat.ColorYuy2 => 2
  | ImageFormat.ColorBgra32 => 3
  | ImageFormat.Depth16 => 4
  | ImageFormat.Ir16 => 5
  | ImageFormat.Custom8 => 6
  | ImageFormat.Custom16 => 7
  | ImageFormat.Custom => 8
  | ImageFormat.UnknownFormatError => 255

/-- `impl From<k4a_image_format_t> for ImageFormat` (src/image_format.rs
lines 41-56).  The Rust `match` on integer literals is rendered as a chain of
equality tests with the same branches and the same catch-all. -/
def ImageFormat.fromK4a (format : Nat) : ImageFormat :=
  if format = 0 then ImageFormat.ColorMjpg
  else if format = 1 then ImageFormat.ColorNv12
  else if format = 2 then ImageFormat.ColorYuy2
  else if format = 3 then ImageFormat.ColorBgra32
  else if format = 4 then ImageFormat.Depth16
  else if format = 5 then ImageFormat.Ir16
  else if format = 6 then ImageFormat.Custom8
  else if format = 7 then ImageFormat.Custom16
  else if format = 8 then ImageFormat.Custom
  else ImageFormat.UnknownFormatError

/-! ### `src/device_configuration.rs` -/

/-- `k4a_device_configuration_t` as populated by this binding
(src/device_configuration.rs).  Enum-typed fields hold the raw native
integer encodings. -/
structure DeviceConfiguration where
  color_format : Nat
  color_resolution : Nat
  depth_mode : Nat
  camera_fps : Nat
  synchronized_images_only : Bool
  depth_delay_off_color_usec : Int
  wired_sync_mode : Nat
  subordinate_delay_off_master_usec : Nat
  disable_streaming_indicator : Bool
deriving DecidableEq, Repr

/-- `DeviceConfiguration::new` (src/device_configuration.rs lines 8-20). -/
def DeviceConfiguration.new : DeviceConfiguration :=
  { color_format := K4A_IMAGE_FORMAT_COLOR_MJPG
    color_resolution := K4A_COLOR_RESOLUTION_720P
    depth_mode := K4A_DEPTH_MODE_WFOV_2X2BINNED
    camera_fps := 0
    synchronized_images_only := false
    depth_delay_off_color_usec := 0
    wired_sync_mode := 0
    subordinate_delay_off_master_usec := 0
    disable_streaming_indicator := false }

/-- `DeviceConfiguration::init_disable_all` (src/device_configuration.rs
lines 27-40). -/
def DeviceConfiguration.init_disable_all : DeviceConfiguration :=
  { color_format := K4A_IMAGE_FORMAT_COLOR_MJPG
    color_resolution := K4A_COLOR_RESOLUTION_OFF
    depth_mode := K4A_DEPTH_MODE_OFF
    camera_fps := K4A_FRAMES_PER_SECOND_30
    synchronized_images_only := false
    depth_delay_off_color_usec := 0
    wired_sync_mode := K4A_WIRED_SYNC_MODE_STANDALONE
    subordinate_delay_off_master_usec := 0
    disable_streaming_indicator := false }

/-- The configuration built by `Device::start_cameras_default_config`
(src/device.rs lines 135-145): `DeviceConfiguration::new()` with the four
listed fields overwritten before `start_cameras` is called. -/
def startCamerasDefaultConfiguration : DeviceConfiguration :=
  { DeviceConfiguration.new with
    color_format := K4A_IMAGE_FORMAT_COLOR_BGRA32
    color_resolution := K4A_COLOR_RESOLUTION_2160P
    depth_mode := K4A_DEPTH_MODE_NFOV_UNBINNED
    camera_fps := K4A_FRAMES_PER_SECOND_30 }

/-! ### Reference-counted native handles (`src/capture.rs`, `src/image.rs`)

The wrapper code under verification calls `k4a_capture_reference` /
`k4a_capture_release` (and the `k4a_image_*` twins).  The native side of
those calls is modelled from the spec: "the native reference count is
incremented on duplication and decremented on wrapper destruction.  When the
count reaches zero, the native layer frees the underlying capture" (spec §3,
and the comments in src/capture.rs lines 14-15 / src/image.rs lines 112-113).
-/

/-- Modelled from the spec: the native SDK state for one reference-counted
capture/image object.  `rc` is the native reference count; `destroyed` counts
how many times the native layer has freed the underlying object. -/
structure RcNative where
  rc : Nat
  destroyed : Nat
deriving DecidableEq, Repr

/-- Modelled from the spec: `k4a_capture_reference` increments the native
reference count. -/
def k4a_capture_reference (s : RcNative) : RcNative :=
  { s with rc := s.rc + 1 }

/-- Modelled from the spec: `k4a_capture_release` decrements the native
reference count and frees the object when the count reaches zero. -/
def k4a_capture_release (s : RcNative) : RcNative :=
  { rc := s.rc - 1
    destroyed := if s.rc - 1 = 0 then s.destroyed + 1 else s.destroyed }

/-- Modelled from the spec: `k4a_image_reference`, same discipline as
`k4a_capture_reference`. -/
def k4a_image_reference (s : RcNative) : RcNative :=
  { s with rc := s.rc + 1 }

/-- Modelled from the spec: `k4a_image_release`, same discipline as
`k4a_capture_release`. -/
def k4a_image_release (s : RcNative) : RcNative :=
  { rc := s.rc - 1
    destroyed := if s.rc - 1 = 0 then s.destroyed + 1 else s.destroyed }

/-- The observable world for a family of wrappers sharing one
reference-counted native handle: how many wrappers are currently live, plus
the native object's state. -/
structure RcWorld where
  live : Nat
  native : RcNative
deriving DecidableEq, Repr

/-- A wrapper-level lifecycle operation: `Clone::clone` on some live wrapper,
or `Drop::drop` of some live wrapper. -/
inductive RcOp
  | clone
  | drop
deriving DecidableEq, Repr

/-- One step of the `Capture` wrapper lifecycle.  `Clone::clone`
(src/capture.rs lines 26-36) calls `k4a_capture_reference` and yields one
more wrapper on the same handle; `Drop::drop` (src/capture.rs lines 16-23)
calls `k4a_capture_release` and removes one wrapper.  Both require a live
wrapper to be invoked on (`none` marks an impossible program). -/
def captureStep (w : RcWorld) : RcOp → Option RcWorld
  | RcOp.clone =>
    if w.live = 0 then none
    else some { live := w.live + 1, native := k4a_capture_reference w.native }
  | RcOp.drop =>
    if w.live = 0 then none
    else some { live := w.live - 1, native := k4a_capture_release w.native }

/-- One step of the `Image` wrapper lifecycle (src/image.rs lines 114-146),
textually the same discipline as `captureStep` via the `k4a_image_*` calls. -/
def imageStep (w : RcWorld) : RcOp → Option RcWorld
  | RcOp.clone =>
    if w.live = 0 then none
    else some { live := w.live + 1, native := k4a_image_reference w.native }
  | RcOp.drop =>
    if w.live = 0 then none
    else some { live := w.live - 1, native := k4a_image_release w.native }

/-- Run a sequence of wrapper lifecycle operations under a given step
function. -/
def runRcOps (step : RcWorld → RcOp → Option RcWorld) :
    List RcOp → RcWorld → Option RcWorld
  | [], w => some w
  | op :: rest, w =>
    match step w op with
    | none => none
    | some w2 => runRcOps step rest w2

/-- The starting world for a single freshly acquired wrapper: the native SDK
hands out capture/image handles with a reference count of 1 (src/image.rs
line 29: "The k4a_image_t is created with a reference count of 1"). -/
def rcInit : RcWorld :=
  { live := 1, native := { rc := 1, destroyed := 0 } }

/-- The reference-counting invariant: the native count equals the number of
live wrappers, and the native object has been freed exactly once if no
wrapper is left and never otherwise. -/
def RcInvariant (w : RcWorld) : Prop :=
  w.native.rc = w.live ∧
    w.native.destroyed = (if w.live = 0 then 1 else 0)

/-! ### `src/transformation.rs`

`Transformation` carries `#[derive(Clone,Debug)]` (line 8) and a `Drop` that
calls `k4a_transformation_destroy(self.transformation)` (lines 41-47).  The
derived `Clone` duplicates the raw handle with no native call. -/

/-- World for wrappers of one native transformation handle: number of live
`Transformation` wrappers holding the handle, and how many times
`k4a_transformation_destroy` has been invoked on it. -/
structure TransformationWorld where
  live : Nat
  destroyCalls : Nat
deriving DecidableEq, Repr

/-- One step of the `Transformation` wrapper lifecycle.  The derived
`Clone::clone` copies the struct — including the raw handle — without any
native call; `Drop::drop` calls `k4a_transformation_destroy` on the handle. -/
def transformationStep (w : TransformationWorld) : RcOp → Option TransformationWorld
  | RcOp.clone =>
    if w.live = 0 then none
    else some { live := w.live + 1, destroyCalls := w.destroyCalls }
  | RcOp.drop =>
    if w.live = 0 then none
    else some { live := w.live - 1, destroyCalls := w.destroyCalls + 1 }

/-- Run a sequence of `Transformation` lifecycle operations. -/
def runTransformationOps :
    List RcOp → TransformationWorld → Option TransformationWorld
  | [], w => some w
  | op :: rest, w =>
    match transformationStep w op with
    | none => none
    | some w2 => runTransformationOps rest w2

/-- The world right after `Transformation::from_calibration`
(src/transformation.rs lines 17-32): one wrapper, no destroy call yet. -/
def transformationInit : TransformationWorld :=
  { live := 1, destroyCalls := 0 }

/-! ### Capture wrappers and image-slot accessors

Native pointers are modelled as `Nat`, with `0` playing the role of the null
pointer.  The native accessor (`k4a_capture_get_depth_image` and friends) is
passed in as an explicit function from the capture handle to the returned
image pointer, so the theorems quantify over every native behaviour. -/

/-- `Capture` (src/capture.rs line 9): a newtype over the raw native capture
handle. -/
structure Capture where
  handle : Nat
deriving DecidableEq, Repr

/-- `Image` (src/image.rs line 11): a newtype over the raw native image
handle. -/
structure Image where
  handle : Nat
deriving DecidableEq, Repr

/-- `Capture::get_depth_image` (src/capture.rs lines 53-61): call the native
accessor on the wrapped handle, return `None` on a null pointer and a wrapped
`Image` otherwise.  `nativeGet` stands for `k4a_capture_get_depth_image`. -/
def Capture.get_depth_image (nativeGet : Nat → Nat) (c : Capture) : Option Image :=
  let image := nativeGet c.handle
  if image = 0 then none
  else some { handle := image }

/-- `Capture::get_color_image` (src/capture.rs lines 64-72). -/
def Capture.get_color_image (nativeGet : Nat → Nat) (c : Capture) : Option Image :=
  let image := nativeGet c.handle
  if image = 0 then none
  else some { handle := image }

/-- `Capture::get_ir_image` (src/capture.rs lines 75-83). -/
def Capture.get_ir_image (nativeGet : Nat → Nat) (c : Capture) : Option Image :=
  let image := nativeGet c.handle
  if image = 0 then none
  else some { handle := image }

/-- `CaptureError` (src/lib.rs lines 242-245), the error type of the legacy
image-slot accessors. -/
inductive CaptureError
  | NullCapture
deriving DecidableEq, Repr

/-- The legacy `Capture` (src/lib.rs line 390). -/
structure LegacyCapture where
  handle : Nat
deriving DecidableEq, Repr

/-- Legacy `Capture::get_depth_image` (src/lib.rs lines 393-401): signals an
empty slot as `Err(CaptureError::NullCapture)` instead of an absent value. -/
def LegacyCapture.get_depth_image (nativeGet : Nat → Nat) (c : LegacyCapture) :
    Except CaptureError Image :=
  let image := nativeGet c.handle
  if image = 0 then Except.error CaptureError.NullCapture
  else Except.ok { handle := image }

/-- Legacy `Capture::get_color_image` (src/lib.rs lines 403-411). -/
def LegacyCapture.get_color_image (nativeGet : Nat → Nat) (c : LegacyCapture) :
    Except CaptureError Image :=
  let image := nativeGet c.handle
  if image = 0 then Except.error CaptureError.NullCapture
  else Except.ok { handle := image }

/-- Legacy `Capture::get_ir_image` (src/lib.rs lines 413-421). -/
def LegacyCapture.get_ir_image (nativeGet : Nat → Nat) (c : LegacyCapture) :
    Except CaptureError Image :=
  let image := nativeGet c.handle
  if image = 0 then Except.error CaptureError.NullCapture
  else Except.ok { handle := image }

/-! ### `Device::get_capture` (`src/device.rs` and the legacy `src/lib.rs`) -/

/-- `DeviceGetCaptureError` as constructed by src/device.rs lines 175-189.
(src/error.rs declares a `timeout_millis` payload on `TimeoutError`, but
src/device.rs line 178 constructs the variant without one; the construction
site is what this embedding follows.) -/
inductive DeviceGetCaptureError
  | TimeoutError
  | FailedError
  | UnexpectedError (code : Int)
deriving DecidableEq, Repr

/-- `GetCaptureError` (src/lib.rs lines 236-240), the legacy error type. -/
inductive GetCaptureError
  | TimeoutError
  | FailedError
  | UnknownError (code : Nat)
deriving DecidableEq, Repr

/-- The observable behaviour of one native `k4a_device_get_capture` call:
the wait-result code it returns and the pointer value it writes into the
caller's capture buffer (`0` = null). -/
structure GetCaptureNative where
  status : Nat
  written : Nat
deriving DecidableEq, Repr

/-- `Device::get_capture_buffered` (src/device.rs lines 168-192): translate
the native wait-result code, leaving the buffer handling to the caller. -/
def getCaptureBuffered (result : Nat) : Except DeviceGetCaptureError Unit :=
  if result = K4A_WAIT_RESULT_SUCCEEDED then Except.ok ()
  else if result = K4A_WAIT_RESULT_TIMEOUT then
    Except.error DeviceGetCaptureError.TimeoutError
  else if result = K4A_WAIT_RESULT_FAILED then
    Except.error DeviceGetCaptureError.FailedError
  else Except.error (DeviceGetCaptureError.UnexpectedError (i32ofU32 result))

/-- `Device::get_capture` (src/device.rs lines 161-165): run the buffered
variant on a null-initialised buffer and wrap whatever pointer the native
call wrote — no null check (the source carries `TODO: Can capture be
null?`). -/
def getCapture (m : GetCaptureNative) : Except DeviceGetCaptureError Capture :=
  (getCaptureBuffered m.status).map (fun _ => { handle := m.written })

/-- Legacy `Device::get_capture_buffered` (src/lib.rs lines 155-176).
Note: the source maps the `K4A_WAIT_RESULT_FAILED` arm to
`GetCaptureError::TimeoutError` (lines 167-169), not to `FailedError`. -/
def legacyGetCaptureBuffered (result : Nat) : Except GetCaptureError Unit :=
  if result = K4A_WAIT_RESULT_SUCCEEDED then Except.ok ()
  else if result = K4A_WAIT_RESULT_TIMEOUT then
    Except.error GetCaptureError.TimeoutError
  else if result = K4A_WAIT_RESULT_FAILED then
    Except.error GetCaptureError.TimeoutError
  else Except.error (GetCaptureError.UnknownError result)

/-- Legacy `Device::get_capture` (src/lib.rs lines 148-152): same unchecked
wrapping of the written pointer. -/
def legacyGetCapture (m : GetCaptureNative) : Except GetCaptureError LegacyCapture :=
  (legacyGetCaptureBuffered m.status).map (fun _ => { handle := m.written })

/-! ### `Device::get_serial_number` (`src/device.rs` lines 58-88)

The function is embedded at the byte level: the Rust `String` is represented
by its UTF-8 bytes, `String::from_utf8` by a UTF-8 validity check, and
`trim_matches(char::from(0))` by stripping NUL bytes from both ends (the NUL
character occupies exactly one byte in UTF-8, so character-level trimming and
byte-level trimming agree). -/

/-- `KinectError` (src/lib.rs lines 12-19), as used by
`Device::get_serial_number`. -/
inductive KinectError
  | UnableToOpen (error_code : Nat)
  | UnableToGetSerialNumber
  | UnableToStartCameras (error_code : Nat)
  | UnableToCreateImage (error_code : Nat)
  | UnableToGetSyncJackStatus (error_code : Nat)
deriving DecidableEq, Repr

/-- A UTF-8 continuation byte. -/
def isUtf8Cont (b : Nat) : Bool :=
  decide (0x80 ≤ b ∧ b ≤ 0xBF)

/-- Validity of a byte sequence as UTF-8, with the exact shape accepted by
Rust's `String::from_utf8` (no overlong encodings, no surrogates, code
points at most `U+10FFFF`). -/
def validUtf8 : List Nat → Bool
  | [] => true
  | b :: rest =>
    if b ≤ 0x7F then validUtf8 rest
    else if 0xC2 ≤ b ∧ b ≤ 0xDF then
      match rest with
      | c1 :: r => isUtf8Cont c1 && validUtf8 r
      | [] => false
    else if b = 0xE0 then
      match rest with
      | c1 :: c2 :: r =>
        decide (0xA0 ≤ c1 ∧ c1 ≤ 0xBF) && isUtf8Cont c2 && validUtf8 r
      | _ => false
    else if (0xE1 ≤ b ∧ b ≤ 0xEC) ∨ (0xEE ≤ b ∧ b ≤ 0xEF) then
      match rest with
      | c1 :: c2 :: r => isUtf8Cont c1 && isUtf8Cont c2 && validUtf8 r
      | _ => false
    else if b = 0xED then
      match rest with
      | c1 :: c2 :: r =>
        decide (0x80 ≤ c1 ∧ c1 ≤ 0x9F) && isUtf8Cont c2 && validUtf8 r
      | _ => false
    else if b = 0xF0 then
      match rest with
      | c1 :: c2 :: c3 :: r =>
        decide (0x90 ≤ c1 ∧ c1 ≤ 0xBF) && isUtf8Cont c2 && isUtf8Cont c3 &&
          validUtf8 r
      | _ => false
    else if 0xF1 ≤ b ∧ b ≤ 0xF3 then
      match rest with
      | c1 :: c2 :: c3 :: r =>
        isUtf8Cont c1 && isUtf8Cont c2 && isUtf8Cont c3 && validUtf8 r
      | _ => false
    else if b = 0xF4 then
      match rest with
      | c1 :: c2 :: c3 :: r =>
        decide (0x80 ≤ c1 ∧ c1 ≤ 0x8F) && isUtf8Cont c2 && isUtf8Cont c3 &&
          validUtf8 r
      | _ => false
    else false

/-- Strip leading NUL bytes. -/
def trimStartNul : List Nat → List Nat
  | [] => []
  | b :: rest => if b = 0 then trimStartNul rest else b :: rest

/-- Strip trailing NUL bytes. -/
def trimEndNul (l : List Nat) : List Nat :=
  (trimStartNul l.reverse).reverse

/-- `str::trim_matches(char::from(0))` at the byte level: strip NUL bytes
from both ends (src/device.rs line 86). -/
def trimNul (l : List Nat) : List Nat :=
  trimStartNul (trimEndNul l)

/-- The caller-allocated buffer after the second native call: the binding
allocates `vec![0i8; len]` and the native layer overwrites it with its
serial-number bytes (unwritten positions keep the zero fill). -/
def fillBuffer (len : Nat) (bytes : List Nat) : List Nat :=
  bytes.take len ++ List.replicate (len - bytes.length) 0

/-- The observable behaviour of a native layer across the two
`k4a_device_get_serialnum` calls made by `get_serial_number`: the buffer
result and reported length of the size query, then the buffer result and
written bytes of the fill query. -/
structure SerialNative where
  status1 : Nat
  reported_len : Nat
  status2 : Nat
  bytes : List Nat
deriving DecidableEq, Repr

/-- `Device::get_serial_number` (src/device.rs lines 58-88): the first query
must report `K4A_BUFFER_RESULT_TOO_SMALL`, the second must report
`K4A_BUFFER_RESULT_SUCCEEDED`, the buffer must decode as UTF-8, and NUL
bytes are trimmed from both ends of the result. -/
def get_serial_number (m : SerialNative) : Except KinectError (List Nat) :=
  if m.status1 ≠ K4A_BUFFER_RESULT_TOO_SMALL then
    Except.error KinectError.UnableToGetSerialNumber
  else
    let buf := fillBuffer m.reported_len m.bytes
    if m.status2 ≠ K4A_BUFFER_RESULT_SUCCEEDED then
      Except.error KinectError.UnableToGetSerialNumber
    else if validUtf8 buf then Except.ok (trimNul buf)
    else Except.error KinectError.UnableToGetSerialNumber

/-! ### `src/calibration.rs`

`f32` fields are modelled as `ℚ`: the embedded code only ever stores the
literal `0.0` in them and compares nothing, so no floating-point behaviour
is lost. -/

/-- `k4a_calibration_extrinsics_t`: a 3×3 rotation (9 entries, row major)
and a translation vector (3 entries). -/
structure CalibrationExtrinsics where
  rotation : List ℚ
  translation : List ℚ
deriving DecidableEq, Repr

/-- The `param` member of `k4a_calibration_intrinsic_parameters_t` — the
only member of the native union this binding ever reads (spec §9: "current
source always reads the same member unconditionally"), so the union is
modelled as that member.  Field order follows the source literal
(src/calibration.rs lines 38-54, `p2` before `p1`). -/
structure CalibrationIntrinsicParameters where
  cx : ℚ
  cy : ℚ
  fx : ℚ
  fy : ℚ
  k1 : ℚ
  k2 : ℚ
  k3 : ℚ
  k4 : ℚ
  k5 : ℚ
  k6 : ℚ
  codx : ℚ
  cody : ℚ
  p2 : ℚ
  p1 : ℚ
  metric_radius : ℚ
deriving DecidableEq, Repr

/-- `k4a_calibration_intrinsics_t`. -/
structure CalibrationIntrinsics where
  type_ : Nat
  parameter_count : Nat
  param : CalibrationIntrinsicParameters
deriving DecidableEq, Repr

/-- `k4a_calibration_camera_t`. -/
structure CameraCalibration where
  resolution_width : Int
  resolution_height : Int
  metric_radius : ℚ
  extrinsics : CalibrationExtrinsics
  intrinsics : CalibrationIntrinsics
deriving DecidableEq, Repr

/-- `k4a_calibration_t`, wrapped by `Calibration` (src/calibration.rs
line 6).  The 4×4 extrinsics table is a list of 4 rows of 4 entries. -/
structure Calibration where
  color_camera_calibration : CameraCalibration
  depth_camera_calibration : CameraCalibration
  color_resolution : Nat
  depth_mode : Nat
  extrinsics : List (List CalibrationExtrinsics)
deriving DecidableEq, Repr

/-- `Calibration::default` (src/calibration.rs lines 9-66): all-zero
extrinsics, replicated into the 4×4 table, an all-zero camera block used for
both cameras, and zero mode/resolution codes. -/
def Calibration.default : Calibration :=
  let extrinsics : CalibrationExtrinsics :=
    { rotation := [0, 0, 0, 0, 0, 0, 0, 0, 0]
      translation := [0, 0, 0] }
  let extrinsics_4 := [extrinsics, extrinsics, extrinsics, extrinsics]
  let extrinsics_4_4 := [extrinsics_4, extrinsics_4, extrinsics_4, extrinsics_4]
  let camera_calibration : CameraCalibration :=
    { resolution_width := 0
      resolution_height := 0
      metric_radius := 0
      extrinsics := extrinsics
      intrinsics :=
        { type_ := 0
          parameter_count := 0
          param :=
            { cx := 0, cy := 0, fx := 0, fy := 0
              k1 := 0, k2 := 0, k3 := 0, k4 := 0, k5 := 0, k6 := 0
              codx := 0, cody := 0, p2 := 0, p1 := 0
              metric_radius := 0 } } }
  { color_camera_calibration := camera_calibration
    depth_camera_calibration := camera_calibration
    color_resolution := 0
    depth_mode := 0
    extrinsics := extrinsics_4_4 }

/-- `Calibration::color_camera_resolution_width` (src/calibration.rs
lines 69-71). -/
def Calibration.color_camera_resolution_width (c : Calibration) : Int :=
  c.color_camera_calibration.resolution_width

/-- `Calibration::color_camera_resolution_height` (src/calibration.rs
lines 74-76). -/
def Calibration.color_camera_resolution_height (c : Calibration) : Int :=
  c.color_camera_calibration.resolution_height

/-- `Calibration::depth_camera_resolution_width` (src/calibration.rs
lines 78-80). -/
def Calibration.depth_camera_resolution_width (c : Calibration) : Int :=
  c.depth_camera_calibration.resolution_width

/-- `Calibration::depth_camera_resolution_height` (src/calibration.rs
lines 83-85). -/
def Calibration.depth_camera_resolution_height (c : Calibration) : Int :=
  c.depth_camera_calibration.resolution_height

/-! ## Theorems -/

/-- C6: encoding any of the nine named image formats with `to_k4a` and
decoding with `From` round-trips; the codes are exactly 0..8 in declaration
order; decoding any integer outside 0..8 yields the unknown-format sentinel,
which differs from all nine named formats. -/
theorem image_format_roundtrip :
    (∀ f : ImageFormat, f ≠ ImageFormat.UnknownFormatError →
      ImageFormat.fromK4a f.to_k4a = f) ∧
    (ImageFormat.to_k4a ImageFormat.ColorMjpg = 0 ∧
      ImageFormat.to_k4a ImageFormat.ColorNv12 = 1 ∧
      ImageFormat.to_k4a ImageFormat.ColorYuy2 = 2 ∧
      ImageFormat.to_k4a ImageFormat.ColorBgra32 = 3 ∧
      ImageFormat.to_k4a ImageFormat.Depth16 = 4 ∧
      ImageFormat.to_k4a ImageFormat.Ir16 = 5 ∧
      ImageFormat.to_k4a ImageFormat.Custom8 = 6 ∧
      ImageFormat.to_k4a ImageFormat.Custom16 = 7 ∧
      ImageFormat.to_k4a ImageFormat.Custom = 8) ∧
    (∀ n : Nat, 8 < n → ImageFormat.fromK4a n = ImageFormat.UnknownFormatError) ∧
    (∀ f : ImageFormat, f ≠ ImageFormat.UnknownFormatError →
      ImageFormat.UnknownFormatError ≠ f) := by
  refine ⟨by decide, by decide, ?_, by decide⟩
  intro n hn
  simp only [ImageFormat.fromK4a]
  repeat rw [if_neg (by omega)]

theorem image_format_roundtrip_witness :
    ImageFormat.fromK4a (ImageFormat.to_k4a ImageFormat.ColorBgra32) =
      ImageFormat.ColorBgra32 ∧
    ImageFormat.fromK4a 9 = ImageFormat.UnknownFormatError :=
  ⟨image_format_roundtrip.1 ImageFormat.ColorBgra32 (by decide),
   image_format_roundtrip.2.2.1 9 (by decide)⟩

/-- C7: the three named configuration presets carry exactly the enumerated
field values — the "start with defaults" path uses BGRA32 / 2160p /
NFOV-unbinned / 30 fps; `new` uses MJPEG / 720p / WFOV-2×2-binned with the
frame rate and every synchronization and timing field zeroed; "disable all"
turns the color resolution and depth mode off with 30 fps and standalone
wired-sync — and the three presets are pairwise distinct. -/
theorem device_configuration_presets :
    (startCamerasDefaultConfiguration.color_format = K4A_IMAGE_FORMAT_COLOR_BGRA32 ∧
      startCamerasDefaultConfiguration.color_resolution = K4A_COLOR_RESOLUTION_2160P ∧
      startCamerasDefaultConfiguration.depth_mode = K4A_DEPTH_MODE_NFOV_UNBINNED ∧
      startCamerasDefaultConfiguration.camera_fps = K4A_FRAMES_PER_SECOND_30) ∧
    (DeviceConfiguration.new.color_format = K4A_IMAGE_FORMAT_COLOR_MJPG ∧
      DeviceConfiguration.new.color_resolution = K4A_COLOR_RESOLUTION_720P ∧
      DeviceConfiguration.new.depth_mode = K4A_DEPTH_MODE_WFOV_2X2BINNED ∧
      DeviceConfiguration.new.camera_fps = 0 ∧
      DeviceConfiguration.new.synchronized_images_only = false ∧
      DeviceConfiguration.new.depth_delay_off_color_usec = 0 ∧
      DeviceConfiguration.new.wired_sync_mode = 0 ∧
      DeviceConfiguration.new.subordinate_delay_off_master_usec = 0 ∧
      DeviceConfiguration.new.disable_streaming_indicator = false) ∧
    (DeviceConfiguration.init_disable_all.color_resolution = K4A_COLOR_RESOLUTION_OFF ∧
      DeviceConfiguration.init_disable_all.depth_mode = K4A_DEPTH_MODE_OFF ∧
      DeviceConfiguration.init_disable_all.camera_fps = K4A_FRAMES_PER_SECOND_30 ∧
      DeviceConfiguration.init_disable_all.wired_sync_mode =
        K4A_WIRED_SYNC_MODE_STANDALONE) ∧
    (startCamerasDefaultConfiguration ≠ DeviceConfiguration.new ∧
      startCamerasDefaultConfiguration ≠ DeviceConfiguration.init_disable_all ∧
      DeviceConfiguration.new ≠ DeviceConfiguration.init_disable_all) := by
  decide

/-- C8: `Calibration::default` is the all-zero calibration — every numeric
field of both camera blocks, every extrinsic entry and every dimension is
zero — and the four resolution accessors return 0 on it. -/
theorem calibration_default_all_zero :
    (Calibration.default.color_camera_calibration.resolution_width = 0 ∧
      Calibration.default.color_camera_calibration.resolution_height = 0 ∧
      Calibration.default.color_camera_calibration.metric_radius = 0 ∧
      Calibration.default.color_camera_calibration.extrinsics.rotation =
        List.replicate 9 0 ∧
      Calibration.default.color_camera_calibration.extrinsics.translation =
        List.replicate 3 0 ∧
      Calibration.default.color_camera_calibration.intrinsics.type_ = 0 ∧
      Calibration.default.color_camera_calibration.intrinsics.parameter_count = 0 ∧
      Calibration.default.color_camera_calibration.intrinsics.param =
        ⟨0, 0, 0, 0, 0, 0, 0, 0, 0, 0, 0, 0, 0, 0, 0⟩) ∧
    (Calibration.default.depth_camera_calibration =
      Calibration.default.color_camera_calibration) ∧
    (Calibration.default.color_resolution = 0 ∧
      Calibration.default.depth_mode = 0 ∧
      Calibration.default.extrinsics =
        List.replicate 4 (List.replicate 4
          ⟨List.replicate 9 0, List.replicate 3 0⟩)) ∧
    (Calibration.default.color_camera_resolution_width = 0 ∧
      Calibration.default.color_camera_resolution_height = 0 ∧
      Calibration.default.depth_camera_resolution_width = 0 ∧
      Calibration.default.depth_camera_resolution_height = 0) := by
  decide

/-- C2 (code bug): `Transformation` is *not* move-only — it carries
`#[derive(Clone)]` while `Drop` calls `k4a_transformation_destroy`, so the
public interface lets a program clone a wrapper and destroy the same native
handle twice: cloning a freshly constructed wrapper and dropping both
duplicates invokes the native destroy twice. -/
theorem transformation_clone_then_drops_double_destroy :
    runTransformationOps [RcOp.clone, RcOp.drop, RcOp.drop] transformationInit =
      some { live := 0, destroyCalls := 2 } := rfl

/-- C9 (code bug): the legacy `get_capture_buffered` maps the native
`K4A_WAIT_RESULT_FAILED` code to `GetCaptureError::TimeoutError` — not to its
own (otherwise unused) `FailedError` variant — while the revised version maps
it to `DeviceGetCaptureError::FailedError`; the two revisions disagree on the
failed wait-result code. -/
theorem legacy_failed_wait_result_maps_to_timeout :
    legacyGetCaptureBuffered K4A_WAIT_RESULT_FAILED =
      Except.error GetCaptureError.TimeoutError ∧
    GetCaptureError.TimeoutError ≠ GetCaptureError.FailedError ∧
    getCaptureBuffered K4A_WAIT_RESULT_FAILED =
      Except.error DeviceGetCaptureError.FailedError :=
  ⟨rfl, by decide, rfl⟩

/-- C3: `Device::get_capture` has exactly the three distinguished failure
outcomes plus success, determined by the native wait-result code: success
yields a `Capture`, the timeout code yields the timeout outcome (never the
failed or unexpected one), the failed code yields the failed outcome, and
any other code yields the unexpected-status outcome carrying that code. -/
theorem get_capture_three_outcomes (m : GetCaptureNative) :
    (m.status = K4A_WAIT_RESULT_SUCCEEDED →
      getCapture m = Except.ok { handle := m.written }) ∧
    (m.status = K4A_WAIT_RESULT_TIMEOUT →
      getCapture m = Except.error DeviceGetCaptureError.TimeoutError) ∧
    (m.status = K4A_WAIT_RESULT_FAILED →
      getCapture m = Except.error DeviceGetCaptureError.FailedError) ∧
    (m.status ≠ K4A_WAIT_RESULT_SUCCEEDED →
      m.status ≠ K4A_WAIT_RESULT_TIMEOUT →
      m.status ≠ K4A_WAIT_RESULT_FAILED →
      getCapture m =
        Except.error (DeviceGetCaptureError.UnexpectedError (i32ofU32 m.status))) := by
  refine ⟨fun h => ?_, fun h => ?_, fun h => ?_, fun h1 h2 h3 => ?_⟩ <;>
    simp_all [getCapture, getCaptureBuffered, Except.map,
      K4A_WAIT_RESULT_SUCCEEDED, K4A_WAIT_RESULT_TIMEOUT, K4A_WAIT_RESULT_FAILED]

theorem get_capture_three_outcomes_witness :
    getCapture { status := 2, written := 0 } =
      Except.error DeviceGetCaptureError.TimeoutError :=
  (get_capture_three_outcomes { status := 2, written := 0 }).2.1 rfl

/-- C10: when the native get-capture call reports success, both revisions of
`Device::get_capture` wrap whatever pointer was written — a null pointer
included — without any check, and every image-slot accessor on the resulting
wrapper hands that null handle straight to the native layer. -/
theorem get_capture_success_null_passthrough (nativeGet : Nat → Nat) :
    getCapture { status := K4A_WAIT_RESULT_SUCCEEDED, written := 0 } =
      Except.ok { handle := 0 } ∧
    legacyGetCapture { status := K4A_WAIT_RESULT_SUCCEEDED, written := 0 } =
      Except.ok { handle := 0 } ∧
    Capture.get_depth_image nativeGet { handle := 0 } =
      (if nativeGet 0 = 0 then none else some { handle := nativeGet 0 }) ∧
    Capture.get_color_image nativeGet { handle := 0 } =
      (if nativeGet 0 = 0 then none else some { handle := nativeGet 0 }) ∧
    Capture.get_ir_image nativeGet { handle := 0 } =
      (if nativeGet 0 = 0 then none else some { handle := nativeGet 0 }) :=
  ⟨rfl, rfl, rfl, rfl, rfl⟩

/-- C4 counterexample: the legacy `Capture::get_depth_image` (src/lib.rs)
signals an empty image slot as the error `CaptureError::NullCapture`, not as
an absent non-error value, refuting the claim for the legacy revision. -/
theorem legacy_get_depth_image_absent_is_error :
    LegacyCapture.get_depth_image (fun _ => 0) { handle := 1 } =
      Except.error CaptureError.NullCapture := rfl

/-- C4 (amended): the revised `Capture` accessors (src/capture.rs) return
`None` exactly when the native layer yields a null handle for the slot and
`Some` of the wrapped non-null handle otherwise; the legacy `Capture`
accessors (src/lib.rs) instead signal exactly those empty slots as the error
value `NullCapture`. -/
theorem capture_image_slot_accessors (fd fc fi : Nat → Nat) (c : Capture)
    (lc : LegacyCapture) :
    (Capture.get_depth_image fd c = none ↔ fd c.handle = 0) ∧
    (fd c.handle ≠ 0 →
      Capture.get_depth_image fd c = some { handle := fd c.handle }) ∧
    (Capture.get_color_image fc c = none ↔ fc c.handle = 0) ∧
    (fc c.handle ≠ 0 →
      Capture.get_color_image fc c = some { handle := fc c.handle }) ∧
    (Capture.get_ir_image fi c = none ↔ fi c.handle = 0) ∧
    (fi c.handle ≠ 0 →
      Capture.get_ir_image fi c = some { handle := fi c.handle }) ∧
    (LegacyCapture.get_depth_image fd lc = Except.error CaptureError.NullCapture ↔
      fd lc.handle = 0) ∧
    (LegacyCapture.get_color_image fc lc = Except.error CaptureError.NullCapture ↔
      fc lc.handle = 0) ∧
    (LegacyCapture.get_ir_image fi lc = Except.error CaptureError.NullCapture ↔
      fi lc.handle = 0) := by
  refine ⟨?_, fun h => ?_, ?_, fun h => ?_, ?_, fun h => ?_, ?_, ?_, ?_⟩ <;>
    first
    | (constructor
       · intro h
         by_contra hne
         simp [Capture.get_depth_image, Capture.get_color_image,
           Capture.get_ir_image, LegacyCapture.get_depth_image,
           LegacyCapture.get_color_image, LegacyCapture.get_ir_image, hne] at h
       · intro h
         simp [Capture.get_depth_image, Capture.get_color_image,
           Capture.get_ir_image, LegacyCapture.get_depth_image,
           LegacyCapture.get_color_image, LegacyCapture.get_ir_image, h])
    | simp [Capture.get_depth_image, Capture.get_color_image,
        Capture.get_ir_image, h]

theorem capture_image_slot_accessors_witness :
    Capture.get_depth_image (fun _ => 5) { handle := 3 } = some { handle := 5 } :=
  ((capture_image_slot_accessors (fun _ => 5) (fun _ => 6) (fun _ => 7)
    { handle := 3 } { handle := 4 }).2.1) (by decide)

/-- A lifecycle step of the `Capture` wrapper preserves the
reference-counting invariant. -/
theorem captureStep_invariant (w : RcWorld) (op : RcOp) (w2 : RcWorld)
    (hw : RcInvariant w) (h : captureStep w op = some w2) : RcInvariant w2 := by
  obtain ⟨h1, h2⟩ := hw
  cases op with
  | clone =>
    simp only [captureStep] at h
    split at h
    · exact absurd h (by simp)
    · cases h
      rename_i hlive
      rw [if_neg hlive] at h2
      exact ⟨by simp [k4a_capture_reference, h1],
        by simp [k4a_capture_reference, h2]⟩
  | drop =>
    simp only [captureStep] at h
    split at h
    · exact absurd h (by simp)
    · cases h
      rename_i hlive
      rw [if_neg hlive] at h2
      constructor
      · simp [k4a_capture_release, h1]
      · simp only [k4a_capture_release]
        rw [h1]
        split_ifs <;> omega

/-- A lifecycle step of the `Image` wrapper preserves the reference-counting
invariant. -/
theorem imageStep_invariant (w : RcWorld) (op : RcOp) (w2 : RcWorld)
    (hw : RcInvariant w) (h : imageStep w op = some w2) : RcInvariant w2 := by
  obtain ⟨h1, h2⟩ := hw
  cases op with
  | clone =>
    simp only [imageStep] at h
    split at h
    · exact absurd h (by simp)
    · cases h
      rename_i hlive
      rw [if_neg hlive] at h2
      exact ⟨by simp [k4a_image_reference, h1],
        by simp [k4a_image_reference, h2]⟩
  | drop =>
    simp only [imageStep] at h
    split at h
    · exact absurd h (by simp)
    · cases h
      rename_i hlive
      rw [if_neg hlive] at h2
      constructor
      · simp [k4a_image_release, h1]
      · simp only [k4a_image_release]
        rw [h1]
        split_ifs <;> omega

/-- Running any lifecycle-operation sequence under a step function that
preserves the reference-counting invariant preserves it. -/
theorem runRcOps_invariant (step : RcWorld → RcOp → Option RcWorld)
    (hstep : ∀ w op w2, RcInvariant w → step w op = some w2 → RcInvariant w2) :
    ∀ (ops : List RcOp) (w w2 : RcWorld), RcInvariant w →
      runRcOps step ops w = some w2 → RcInvariant w2 := by
  intro ops
  induction ops with
  | nil =>
    intro w w2 hw h
    simp only [runRcOps, Option.some.injEq] at h
    rwa [← h]
  | cons op rest ih =>
    intro w w2 hw h
    simp only [runRcOps] at h
    cases hs : step w op with
    | none => rw [hs] at h; exact absurd h (by simp)
    | some wmid =>
      rw [hs] at h
      exact ih wmid w2 (hstep w op wmid hw hs) h

/-- C1: for every sequence of `clone`/`drop` operations on `Capture` or
`Image` wrappers sharing one native handle, starting from a single wrapper,
the native reference count always equals the number of live wrappers and the
native object is freed exactly once — precisely when the last live wrapper
is dropped — and never while a wrapper (for example the survivor of a
clone-then-drop pair) is still live. -/
theorem capture_image_refcount_released_once :
    (∀ (ops : List RcOp) (w : RcWorld),
      runRcOps captureStep ops rcInit = some w →
      w.native.rc = w.live ∧
        w.native.destroyed = (if w.live = 0 then 1 else 0)) ∧
    (∀ (ops : List RcOp) (w : RcWorld),
      runRcOps imageStep ops rcInit = some w →
      w.native.rc = w.live ∧
        w.native.destroyed = (if w.live = 0 then 1 else 0)) := by
  constructor <;> intro ops w h
  · exact runRcOps_invariant captureStep captureStep_invariant ops rcInit w
      ⟨rfl, rfl⟩ h
  · exact runRcOps_invariant imageStep imageStep_invariant ops rcInit w
      ⟨rfl, rfl⟩ h

theorem capture_image_refcount_released_once_witness :
    ((⟨1, 1, 0⟩ : RcWorld).native.rc = (⟨1, 1, 0⟩ : RcWorld).live ∧
      (⟨1, 1, 0⟩ : RcWorld).native.destroyed =
        (if (⟨1, 1, 0⟩ : RcWorld).live = 0 then 1 else 0)) ∧
    ((⟨0, 0, 1⟩ : RcWorld).native.rc = (⟨0, 0, 1⟩ : RcWorld).live ∧
      (⟨0, 0, 1⟩ : RcWorld).native.destroyed =
        (if (⟨0, 0, 1⟩ : RcWorld).live = 0 then 1 else 0)) :=
  ⟨capture_image_refcount_released_once.1 [RcOp.clone, RcOp.drop] ⟨1, 1, 0⟩ rfl,
   capture_image_refcount_released_once.2 [RcOp.clone, RcOp.drop, RcOp.drop]
     ⟨0, 0, 1⟩ rfl⟩

/-- Stripping leading NUL bytes leaves a list that does not start with a NUL
byte. -/
theorem trimStartNul_head (l : List Nat) : (trimStartNul l).head? ≠ some 0 := by
  induction l with
  | nil => simp [trimStartNul]
  | cons b rest ih =>
    by_cases h : b = 0
    · simpa [trimStartNul, h] using ih
    · simp [trimStartNul, h]

/-- Stripping leading NUL bytes does not lengthen a list. -/
theorem trimStartNul_length (l : List Nat) :
    (trimStartNul l).length ≤ l.length := by
  induction l with
  | nil => simp [trimStartNul]
  | cons b rest ih =>
    by_cases h : b = 0
    · simp only [trimStartNul, h, if_pos]
      simp only [List.length_cons]
      omega
    · simp [trimStartNul, h]

/-- Stripping leading NUL bytes preserves the last element when the result
is nonempty. -/
theorem trimStartNul_getLast (l : List Nat) (h : trimStartNul l ≠ []) :
    (trimStartNul l).getLast? = l.getLast? := by
  induction l with
  | nil => exact absurd rfl h
  | cons b rest ih =>
    by_cases hb : b = 0
    · have h2 : trimStartNul (b :: rest) = trimStartNul rest := by
        simp [trimStartNul, hb]
      rw [h2] at h ⊢
      have hrest : rest ≠ [] := by
        intro hr
        rw [hr] at h
        exact h rfl
      rw [ih h]
      obtain ⟨x, xs, rfl⟩ := List.exists_cons_of_ne_nil hrest
      exact List.getLast?_cons_cons.symm
    · simp [trimStartNul, hb]

/-- The buffer filled by the second native query has exactly the reported
length. -/
theorem fillBuffer_length (len : Nat) (bytes : List Nat) :
    (fillBuffer len bytes).length = len := by
  simp only [fillBuffer, List.length_append, List.length_take,
    List.length_replicate]
  omega

/-- The NUL-trimmed buffer does not start with a NUL byte. -/
theorem trimNul_head (l : List Nat) : (trimNul l).head? ≠ some 0 :=
  trimStartNul_head (trimEndNul l)

/-- The NUL-trimmed buffer does not end with a NUL byte. -/
theorem trimNul_getLast (l : List Nat) : (trimNul l).getLast? ≠ some 0 := by
  unfold trimNul
  by_cases h : trimStartNul (trimEndNul l) = []
  · simp [h]
  · rw [trimStartNul_getLast _ h]
    unfold trimEndNul
    rw [List.getLast?_reverse]
    exact trimStartNul_head _

/-- NUL-trimming does not lengthen a list. -/
theorem trimNul_length (l : List Nat) : (trimNul l).length ≤ l.length := by
  unfold trimNul trimEndNul
  calc (trimStartNul ((trimStartNul l.reverse).reverse)).length
      ≤ (trimStartNul l.reverse).reverse.length := trimStartNul_length _
    _ = (trimStartNul l.reverse).length := by simp
    _ ≤ l.reverse.length := trimStartNul_length _
    _ = l.length := by simp

/-- C5 (amended): `get_serial_number` fails exactly when the first native
query does not report "buffer too small", the second does not report
success, or the buffer bytes are not valid text; otherwise, for a reported
length of N it returns the buffer's text with NUL bytes stripped from both
ends — of length at most N and with no leading or trailing NUL byte (an
embedded NUL byte reported by the native layer is retained). -/
theorem get_serial_number_spec (m : SerialNative) :
    (get_serial_number m = Except.error KinectError.UnableToGetSerialNumber ↔
      ¬(m.status1 = K4A_BUFFER_RESULT_TOO_SMALL ∧
        m.status2 = K4A_BUFFER_RESULT_SUCCEEDED ∧
        validUtf8 (fillBuffer m.reported_len m.bytes) = true)) ∧
    (∀ s, get_serial_number m = Except.ok s →
      s = trimNul (fillBuffer m.reported_len m.bytes) ∧
      s.length ≤ m.reported_len ∧
      s.head? ≠ some 0 ∧
      s.getLast? ≠ some 0) := by
  constructor
  · by_cases h1 : m.status1 = K4A_BUFFER_RESULT_TOO_SMALL
    · by_cases h2 : m.status2 = K4A_BUFFER_RESULT_SUCCEEDED
      · by_cases h3 : validUtf8 (fillBuffer m.reported_len m.bytes) = true
        · simp [get_serial_number, h1, h2, h3]
        · simp [get_serial_number, h1, h2, h3]
      · simp [get_serial_number, h1, h2]
    · simp [get_serial_number, h1]
  · intro s hs
    by_cases h1 : m.status1 = K4A_BUFFER_RESULT_TOO_SMALL
    · by_cases h2 : m.status2 = K4A_BUFFER_RESULT_SUCCEEDED
      · by_cases h3 : validUtf8 (fillBuffer m.reported_len m.bytes) = true
        · simp [get_serial_number, h1, h2, h3] at hs
          subst hs
          refine ⟨rfl, ?_, trimNul_head _, trimNul_getLast _⟩
          have hl := trimNul_length (fillBuffer m.reported_len m.bytes)
          rwa [fillBuffer_length] at hl
        · simp [get_serial_number, h1, h2, h3] at hs
      · simp [get_serial_number, h1, h2] at hs
    · simp [get_serial_number, h1] at hs

theorem get_serial_number_spec_witness :
    ([75, 105, 110] : List Nat) =
      trimNul (fillBuffer (SerialNative.mk 2 4 0 [75, 105, 110]).reported_len
        (SerialNative.mk 2 4 0 [75, 105, 110]).bytes) ∧
    ([75, 105, 110] : List Nat).length ≤
      (SerialNative.mk 2 4 0 [75, 105, 110]).reported_len ∧
    ([75, 105, 110] : List Nat).head? ≠ some 0 ∧
    ([75, 105, 110] : List Nat).getLast? ≠ some 0 :=
  (get_serial_number_spec (SerialNative.mk 2 4 0 [75, 105, 110])).2
    [75, 105, 110] rfl

/-- C5 counterexample: a mock native layer that reports length 4 and then
success while writing the bytes `[97, 0, 98, 0]` makes `get_serial_number`
return `[97, 0, 98]` — a string that still contains a NUL byte, because
`trim_matches` only strips the ends; the claim's "no terminator byte
anywhere" fails. -/
theorem get_serial_number_embedded_nul :
    get_serial_number
        { status1 := 2, reported_len := 4, status2 := 0, bytes := [97, 0, 98, 0] } =
      Except.ok [97, 0, 98] ∧
    (0 : Nat) ∈ [97, 0, 98] :=
  ⟨rfl, by decide⟩

end KinectRs
